import Mathlib

/-!
Verification of the credit-scoring feedback/retraining pipeline.

This file is a shallow embedding of the data-contract core of the
repository:

* `shared/data_processing.py` — the feature codec
  (`feature_engineering`, one-hot encoding over the static `CATEGORIES`
  table, `preprocess_data_for_prediction` with schema alignment);
* `app/services/retrain.py` — `retrain_model_from_feedback`, the
  validation gates and the commit of the (model, feature-names,
  background-sample) artifact triple;
* `app/services/utils.py` — `_load_model` / `predict_loan_status`.

A single-row pandas DataFrame is embedded as an ordered association
list from column name to cell value.  Cell values are rationals
(Python floats are modelled exactly; `Value.nan` stands for any
non-finite float such as NaN) or strings.  Fallible pandas operations
(`KeyError` on a missing column, `TypeError` on string division)
return `Except`.  The underlying scikit-learn estimators are treated
as a black box: an abstract, pure bundle of functions (`MLEngine`),
exactly as the spec treats them ("pluggable estimator components with
a uniform contract").  Persistence (`joblib.dump` / `joblib.load`) is
modelled by an explicit artifact store plus a failure oracle saying
which dump calls succeed; a failing dump is modelled as leaving the
target file unchanged (this is generous to the code: a real failed
write may additionally corrupt the file).
-/

/-- Python exceptions raised by the pandas-level operations that the
codec uses.  `str(e)` is modelled by `PyErr.msg` below; the exact
Python message text is abbreviated but the wrapping structure of the
source is kept. -/
inductive PyErr where
  | keyError (col : String)
  | typeError (m : String)
  | fileNotFound (m : String)
  | valueError (m : String)
  | generic (m : String)
deriving DecidableEq, Repr

/-- Message extraction, modelling Python's str(e). -/
def PyErr.msg : PyErr → String
  | .keyError col => col
  | .typeError m => m
  | .fileNotFound m => m
  | .valueError m => m
  | .generic m => m

/-- One cell of a DataFrame: a finite float (as an exact rational), a
string, or a non-finite float (NaN / inf, which pandas uses for
missing values and zero-division results). -/
inductive Value where
  | num (q : ℚ)
  | str (s : String)
  | nan
deriving DecidableEq, Repr

/-- One row of a DataFrame: an ordered association list from column
name to value (pandas keeps columns in insertion order). -/
abbrev Row := List (String × Value)

/-- Decidable equality for Except results, so that concrete runs of
the embedded functions can be checked by evaluation. -/
instance {ε α : Type} [DecidableEq ε] [DecidableEq α] : DecidableEq (Except ε α) := by
  intro x y
  cases x with
  | ok a =>
    cases y with
    | ok b =>
      exact if h : a = b then Decidable.isTrue (by rw [h])
        else Decidable.isFalse (fun hc => h (by cases hc; rfl))
    | error f => exact Decidable.isFalse (fun hc => Except.noConfusion hc)
  | error e =>
    cases y with
    | ok b => exact Decidable.isFalse (fun hc => Except.noConfusion hc)
    | error f =>
      exact if h : e = f then Decidable.isTrue (by rw [h])
        else Decidable.isFalse (fun hc => h (by cases hc; rfl))

/-- Lookup of a column's value in a row (first occurrence). -/
def findVal : Row → String → Option Value
  | [], _ => none
  | (k, x) :: t, c => if k = c then some x else findVal t c

/-- Column names of a row, in order (df.columns.tolist()). -/
def keysOf (r : Row) : List String := r.map Prod.fst

/-- Column assignment df[c] = x: replaces the column in place if it
exists, otherwise appends it at the end (pandas semantics). -/
def setCol : Row → String → Value → Row
  | [], c, x => [(c, x)]
  | (k, y) :: t, c, x => if k = c then (c, x) :: t else (k, y) :: setCol t c x

/-- Column drop df.drop(c, axis=1): removes every column labelled c. -/
def dropCol : Row → String → Row
  | [], _ => []
  | (k, y) :: t, c => if k = c then dropCol t c else (k, y) :: dropCol t c

/-- Loop at data_processing.py lines 140-143 and retrain.py lines
195-198: for every expected column missing from the frame, append a
zero column. -/
def addMissing : Row → List String → Row
  | v, [] => v
  | v, c :: rest =>
      if (findVal v c).isSome then addMissing v rest
      else addMissing (v ++ [(c, Value.num 0)]) rest

/-- Column selection df[cols]: KeyError on the first name that is not
a column, otherwise the selected columns in the requested order. -/
def selectCols (v : Row) : List String → Except PyErr Row
  | [] => Except.ok []
  | c :: rest =>
      match findVal v c with
      | some x => (selectCols v rest).map (fun w => (c, x) :: w)
      | none => Except.error (PyErr.keyError c)

/-- Schema reconciliation as written twice in the source
(data_processing.py lines 140-146, retrain.py lines 195-199): append
missing expected columns as 0, then select exactly the expected
columns in their order. -/
def alignRow (S : List String) (v : Row) : Except PyErr Row :=
  selectCols (addMissing v S) S

/-- Value a column gets after alignment: its own value if present,
otherwise 0. -/
def defVal (v : Row) (c : String) : Value := (findVal v c).getD (Value.num 0)

theorem findVal_append_single (v : Row) (c d : String) (x : Value) :
    findVal (v ++ [(c, x)]) d =
      match findVal v d with
      | some y => some y
      | none => if c = d then some x else none := by
  induction v with
  | nil => simp [findVal]
  | cons p t ih =>
    obtain ⟨k, y⟩ := p
    by_cases hk : k = d
    · simp [findVal, hk]
    · simp [findVal, hk, ih]

theorem findVal_addMissing (S : List String) (v : Row) (c : String) :
    findVal (addMissing v S) c =
      match findVal v c with
      | some y => some y
      | none => if c ∈ S then some (Value.num 0) else none := by
  induction S generalizing v with
  | nil => cases h : findVal v c <;> simp [addMissing, h]
  | cons a rest ih =>
    by_cases ha : (findVal v a).isSome
    · rw [addMissing, if_pos ha, ih]
      cases h : findVal v c with
      | some y => simp
      | none =>
        by_cases hc : c = a
        · subst hc; rw [h] at ha; simp at ha
        · simp [List.mem_cons, hc]
    · rw [addMissing, if_neg ha, ih, findVal_append_single]
      cases h : findVal v c with
      | some y => simp
      | none =>
        by_cases hc : c = a
        · subst hc; simp
        · rw [if_neg (fun h' : a = c => hc h'.symm)]
          simp [List.mem_cons, hc]

theorem selectCols_of_forall (g : String → Value) (v : Row) :
    ∀ S : List String, (∀ c ∈ S, findVal v c = some (g c)) →
      selectCols v S = Except.ok (S.map (fun c => (c, g c)))
  | [], _ => by simp [selectCols]
  | c :: rest, h => by
    have hc : findVal v c = some (g c) := h c (List.mem_cons_self c rest)
    have hr := selectCols_of_forall g v rest (fun d hd => h d (List.mem_cons_of_mem c hd))
    simp [selectCols, hc, hr, Except.map]

/-- Alignment always succeeds and returns exactly the schema's columns
in schema order, each carrying the input's value or the fill value 0. -/
theorem alignRow_eq (S : List String) (v : Row) :
    alignRow S v = Except.ok (S.map (fun c => (c, defVal v c))) := by
  refine selectCols_of_forall (defVal v) (addMissing v S) S (fun c hc => ?_)
  rw [findVal_addMissing]
  cases h : findVal v c with
  | some y => simp [defVal, h]
  | none => simp [defVal, h, hc]

theorem findVal_map_self (g : String → Value) (d : String) :
    ∀ S : List String,
      findVal (S.map (fun c => (c, g c))) d = if d ∈ S then some (g d) else none
  | [] => by simp [findVal]
  | c :: rest => by
    by_cases hc : c = d
    · subst hc; simp [findVal]
    · have hdc : ¬d = c := fun h => hc h.symm
      simp [findVal, hc, hdc, findVal_map_self g d rest, List.mem_cons]

/-- C1.  Reconciling any input row against any persisted schema S
yields a row whose column list is exactly S in S's order; every schema
name missing from the input appears with value 0, every name present
keeps its value, and every input name outside S is dropped. -/
theorem c1_schema_reconciliation (S : List String) (v : Row) :
    ∃ w, alignRow S v = Except.ok w ∧
      keysOf w = S ∧
      (∀ c, c ∈ S → findVal v c = none → findVal w c = some (Value.num 0)) ∧
      (∀ c x, c ∈ S → findVal v c = some x → findVal w c = some x) ∧
      (∀ c, c ∉ S → findVal w c = none) := by
  refine ⟨S.map (fun c => (c, defVal v c)), alignRow_eq S v, ?_, ?_, ?_, ?_⟩
  · induction S with
    | nil => rfl
    | cons c rest ih => simpa [keysOf] using ih
  · intro c hc h0
    rw [findVal_map_self, if_pos hc, defVal, h0]
    rfl
  · intro c x hc hx
    rw [findVal_map_self, if_pos hc, defVal, hx]
    rfl
  · intro c hc
    rw [findVal_map_self, if_neg hc]

/-- Witness for C1 at a concrete schema and row: the name b keeps its
value, a is zero-filled, c is dropped. -/
theorem c1_schema_reconciliation_witness :
    ∃ w, alignRow ["a", "b"] [("b", Value.num 2), ("c", Value.num 3)] = Except.ok w ∧
      keysOf w = ["a", "b"] ∧
      findVal w "a" = some (Value.num 0) ∧
      findVal w "b" = some (Value.num 2) ∧
      findVal w "c" = none := by
  obtain ⟨w, hok, hkeys, hfill, hkeep, hdrop⟩ :=
    c1_schema_reconciliation ["a", "b"] [("b", Value.num 2), ("c", Value.num 3)]
  exact ⟨w, hok, hkeys,
    hfill "a" (by simp) (by simp [findVal]),
    hkeep "b" (Value.num 2) (by simp) (by simp [findVal]),
    hdrop "c" (by simp)⟩

/-- Static category-universe table of data_processing.py lines 48-56,
in the source's (insertion-ordered) dict order. -/
def CATEGORIES : List (String × List String) :=
  [("person_home_ownership", ["MORTGAGE", "OTHER", "OWN", "RENT"]),
   ("loan_intent", ["DEBTCONSOLIDATION", "EDUCATION", "HOMEIMPROVEMENT",
                    "MEDICAL", "PERSONAL", "VENTURE"]),
   ("loan_grade", ["A", "B", "C", "D", "E", "F", "G"]),
   ("cb_person_default_on_file", ["N", "Y"])]

/-- Column read df[c]: KeyError when the column is absent. -/
def getCol (r : Row) (c : String) : Except PyErr Value :=
  match findVal r c with
  | some x => Except.ok x
  | none => Except.error (PyErr.keyError c)

/-- Exact rational division, phrased through Rat.divInt so that it
evaluates inside the kernel.  Equal to a / b (lemma ratDiv_eq). -/
def ratDiv (a b : ℚ) : ℚ := Rat.divInt (a.num * (b.den : ℤ)) ((a.den : ℤ) * b.num)

theorem ratDiv_eq (a b : ℚ) : ratDiv a b = a / b := by
  rw [ratDiv, Rat.divInt_eq_div]
  rcases eq_or_ne b 0 with hb | hb
  · subst hb
    push_cast
    simp
  · have had : (a.den : ℚ) ≠ 0 := Nat.cast_ne_zero.mpr (Rat.den_ne_zero a)
    have hbd : (b.den : ℚ) ≠ 0 := Nat.cast_ne_zero.mpr (Rat.den_ne_zero b)
    have hbn : (b.num : ℚ) ≠ 0 := Int.cast_ne_zero.mpr (Rat.num_ne_zero.mpr hb)
    push_cast
    conv_rhs => rw [← Rat.num_div_den a, ← Rat.num_div_den b]
    field_simp
    try ring

/-- Cell division, as pandas evaluates df[a] / df[b] on one row:
finite / finite is exact (a zero divisor gives a non-finite float,
collapsed into nan here), anything involving nan stays nan, and any
string operand raises TypeError. -/
def divV : Value → Value → Except PyErr Value
  | Value.num a, Value.num b =>
      Except.ok (if b = 0 then Value.nan else Value.num (ratDiv a b))
  | Value.num _, Value.nan => Except.ok Value.nan
  | Value.nan, Value.num _ => Except.ok Value.nan
  | Value.nan, Value.nan => Except.ok Value.nan
  | _, _ => Except.error (PyErr.typeError "unsupported operand type for /")

/-- Embedding of feature_engineering (data_processing.py lines 59-82):
adds the derived loan_to_income_ratio column. -/
def feature_engineering (r : Row) : Except PyErr Row := do
  let la ← getCol r "loan_amnt"
  let inc ← getCol r "person_income"
  let q ← divV la inc
  Except.ok (setCol r "loan_to_income_ratio" q)

/-- One-hot encoding of one categorical column (the inner loop of
data_processing.py lines 115-118): reads the column (KeyError when it
is absent), emits one indicator per enumerated category, then drops
the original column. -/
def oheCol (r : Row) (col : String) (cats : List String) : Except PyErr Row := do
  let v ← getCol r col
  let r' := cats.foldl
    (fun acc cat =>
      setCol acc (col ++ "_" ++ cat)
        (Value.num (if v = Value.str cat then 1 else 0))) r
  Except.ok (dropCol r' col)

/-- One-hot encoding over the whole category table, in table order. -/
def oheFold : Row → List (String × List String) → Except PyErr Row
  | r, [] => Except.ok r
  | r, (c, cats) :: rest =>
      match oheCol r c cats with
      | Except.ok r' => oheFold r' rest
      | Except.error e => Except.error e

/-- Embedding of preprocess_data_for_prediction (data_processing.py
lines 85-148) on one borrower row.  The first argument is the content
of the persisted feature_names.pkl file: some fs when the file exists,
none when it does not (in which case the source falls back to the
row's own current columns). -/
def preprocess_data_for_prediction (schemaFile : Option (List String)) (r : Row) :
    Except PyErr Row := do
  let r1 ← feature_engineering r
  let r2 ← oheFold r1 CATEGORIES
  let expected :=
    match schemaFile with
    | some fs => fs
    | none => keysOf r2
  alignRow expected r2

/-- Persisted artifact triple (the three joblib files of
shared/config.py): ensemble_model.pkl, feature_names.pkl,
background_data.pkl.  A field is none when the file does not exist.
M is the (black-box) type of a fitted estimator object. -/
structure Store (M : Type) where
  model : Option M
  featureNames : Option (List String)
  background : Option (List Row)
deriving DecidableEq, Repr

/-- The codec as it actually runs in process: its ambient state is the
whole artifact store, of which it reads the persisted schema file. -/
def preprocessFull {M : Type} (st : Store M) (r : Row) : Except PyErr Row :=
  preprocess_data_for_prediction st.featureNames r

/-- Concrete borrower record used by the concrete evaluations below. -/
def sampleRec : Row :=
  [("person_age", Value.num 35), ("person_income", Value.num 60000),
   ("person_home_ownership", Value.str "RENT"), ("person_emp_length", Value.num 5),
   ("loan_intent", Value.str "PERSONAL"), ("loan_grade", Value.str "B"),
   ("loan_amnt", Value.num 12000), ("loan_int_rate", Value.num (Rat.divInt 23 2)),
   ("loan_percent_income", Value.num (Rat.divInt 1 5)),
   ("cb_person_default_on_file", Value.str "N"),
   ("cb_person_cred_hist_length", Value.num 7)]

/-- C6 counterexample.  The codec+alignment pipeline is not a function
of the record and the category table alone: the same record, run under
two ambient artifact states that differ only in the persisted
feature_names.pkl, produces two different output vectors (the source
reads FEATURE_NAMES_PATH inside preprocess_data_for_prediction). -/
theorem c6_counterexample :
    preprocessFull (Store.mk (M := Unit) none none none) sampleRec ≠
      preprocessFull (Store.mk (M := Unit) none (some ["person_age"]) none) sampleRec := by
  decide

/-- C6 as amended.  The codec is a deterministic function of the input
record, the static category table, and the persisted feature schema
alone: any two ambient artifact states agreeing on the schema file
(whatever their model and background artifacts) give identical output. -/
theorem c6_codec_determinism {M₁ M₂ : Type} (st₁ : Store M₁) (st₂ : Store M₂)
    (r : Row) (h : st₁.featureNames = st₂.featureNames) :
    preprocessFull st₁ r = preprocessFull st₂ r := by
  unfold preprocessFull
  rw [h]

/-- Witness for C6 as amended: two stores with different model and
background artifacts (even of different model types) but equal schema
give the same codec output on sampleRec. -/
theorem c6_codec_determinism_witness :
    preprocessFull (Store.mk (M := Nat) (some 5) (some ["person_age"]) (some [])) sampleRec =
      preprocessFull (Store.mk (M := Unit) none (some ["person_age"]) none) sampleRec :=
  c6_codec_determinism _ _ sampleRec rfl

/-- Pointwise-equal key-tagging functions give equal schema maps. -/
theorem map_pair_congr (g₁ g₂ : String → Value) :
    ∀ S : List String, (∀ c ∈ S, g₁ c = g₂ c) →
      S.map (fun c => (c, g₁ c)) = S.map (fun c => (c, g₂ c))
  | [], _ => rfl
  | c :: rest, h => by
    have hc := h c (List.mem_cons_self c rest)
    have hr := map_pair_congr g₁ g₂ rest (fun d hd => h d (List.mem_cons_of_mem c hd))
    simp [hc, hr]

/-- The raw encoded form of sampleRec (schema file absent, so the
output is aligned to its own columns). -/
def alignedSample : Row :=
  (preprocess_data_for_prediction none sampleRec).toOption.getD []

/-- The schema those columns constitute. -/
def sampleSchema : List String := keysOf alignedSample

/-- C7 counterexample.  alignedSample is a genuine pipeline output
whose columns equal the persisted schema sampleSchema exactly and in
order, yet running the pipeline on it does not return it unchanged:
the pipeline raises (KeyError on the dropped raw categorical columns),
so it is not a no-op fixed point on its own outputs. -/
theorem c7_counterexample :
    preprocess_data_for_prediction (some sampleSchema) sampleRec = Except.ok alignedSample ∧
    keysOf alignedSample = sampleSchema ∧
    preprocess_data_for_prediction (some sampleSchema) alignedSample ≠
      Except.ok alignedSample := by
  decide

/-- C7 as amended.  The schema-alignment step by itself is a no-op
fixed point on its own outputs: re-aligning an aligned vector returns
it unchanged.  (The full codec pipeline is not: it rejects aligned
vectors, as the raw categorical columns are gone — see the
counterexample.) -/
theorem c7_alignment_idempotent (S : List String) (v w : Row)
    (h : alignRow S v = Except.ok w) : alignRow S w = Except.ok w := by
  rw [alignRow_eq S v] at h
  have hw : w = S.map (fun c => (c, defVal v c)) := (Except.ok.injEq _ _).mp h.symm
  subst hw
  rw [alignRow_eq S _]
  refine congrArg Except.ok (map_pair_congr _ _ S (fun c hc => ?_))
  have hfv : findVal (S.map (fun c => (c, defVal v c))) c = some (defVal v c) := by
    rw [findVal_map_self (defVal v) c S]
    exact if_pos hc
  show (findVal (S.map (fun c => (c, defVal v c))) c).getD (Value.num 0) = defVal v c
  rw [hfv]
  rfl

/-- Witness for C7 as amended at a concrete schema and vector. -/
theorem c7_alignment_idempotent_witness :
    alignRow ["a", "b"] [("a", Value.num 0), ("b", Value.num 2)] =
      Except.ok [("a", Value.num 0), ("b", Value.num 2)] :=
  c7_alignment_idempotent ["a", "b"] [("b", Value.num 2)]
    [("a", Value.num 0), ("b", Value.num 2)] (by decide)

/-- Required raw columns of a feedback record (retrain.py lines
111-117), in source order; actual_status (the label) is last. -/
def required_cols : List String :=
  ["person_age", "person_income", "person_home_ownership", "person_emp_length",
   "loan_intent", "loan_grade", "loan_amnt", "loan_int_rate", "loan_percent_income",
   "cb_person_default_on_file", "cb_person_cred_hist_length", "actual_status"]

/-- required_cols[:-1]: the feature columns, label excluded. -/
def featureColsR : List String := required_cols.dropLast

/-- Columns of the DataFrame built from a list of JSON records: the
union of the records' keys in first-appearance order (pandas
semantics for pd.DataFrame(list-of-dicts)). -/
def frameCols (b : List Row) : List String :=
  b.foldl (fun acc r => acc ++ (keysOf r).filter (fun c => !(acc.contains c))) []

/-- Value of the actual_status cell of one record. -/
def labelOf (r : Row) : Option Value := findVal r "actual_status"

/-- is_numeric_dtype(df[actual_status]): the column is numeric iff no
record carries a string there (a record missing the key yields NaN,
which is numeric). -/
def labelsNumeric (b : List Row) : Bool :=
  b.all (fun r =>
    match labelOf r with
    | some (Value.str _) => false
    | _ => true)

/-- set(df[actual_status].unique()).issubset(0, 1): every record's
label is literally 0 or 1 (a missing label contributes NaN, which is
outside the set, as in the source). -/
def labelsBinary (b : List Row) : Bool :=
  b.all (fun r =>
    decide (labelOf r = some (Value.num 0) ∨ labelOf r = some (Value.num 1)))

/-- Number of records with the given label. -/
def countLabel (b : List Row) (q : ℚ) : Nat :=
  (b.filter (fun r => decide (labelOf r = some (Value.num q)))).length

/-- Errors retrain_model_from_feedback can raise, one constructor per
raise site (the source raises ValueError with distinct messages;
fit/dump failures propagate from the libraries). -/
inductive RErr where
  | emptyFeedback
  | missingColumns (cols : List String)
  | labelNotNumeric
  | labelBadValues
  | insufficientData (required got : Nat)
  | classImbalance (r0 r1 : ℚ)
  | insufficientAfterDedup
  | pyExc (e : PyErr)
  | fitFailed
  | dumpFailed
deriving DecidableEq, Repr

/-- Validation gates of retrain.py steps 2-6, in source order: empty
file, missing required columns, non-numeric label, label values
outside 0/1, minimum volume 5, then class balance.  The float
comparison min(ratio) < 0.1 of the source is the exact comparison
10 * min(count0, count1) < n (they agree for any batch small enough
for the float quotient to be more than an ulp away from 0.1, i.e. for
every realistic batch). -/
def validateBatch (b : List Row) : Option RErr :=
  if b.length = 0 then some RErr.emptyFeedback
  else if required_cols.filter (fun c => !((frameCols b).contains c)) ≠ [] then
    some (RErr.missingColumns (required_cols.filter (fun c => !((frameCols b).contains c))))
  else if !(labelsNumeric b) then some RErr.labelNotNumeric
  else if !(labelsBinary b) then some RErr.labelBadValues
  else if b.length < 5 then some (RErr.insufficientData 5 b.length)
  else if 0 < countLabel b 0 ∧ 0 < countLabel b 1 ∧
      10 * min (countLabel b 0) (countLabel b 1) < b.length then
    some (RErr.classImbalance (ratDiv (countLabel b 0) b.length)
      (ratDiv (countLabel b 1) b.length))
  else none

/-- Projection of a record on the feature columns, the key under which
drop_duplicates(subset=required_cols[:-1]) compares records. -/
def projFeatures (r : Row) : List (Option Value) := featureColsR.map (findVal r)

/-- Worker for duplicate suppression: keep a record iff no earlier
record had the same feature projection (first occurrence wins, as in
drop_duplicates). -/
def dedupGo : List (List (Option Value)) → List Row → List Row
  | _, [] => []
  | seen, r :: t =>
      if projFeatures r ∈ seen then dedupGo seen t
      else r :: dedupGo (projFeatures r :: seen) t

/-- df.drop_duplicates(subset=required_cols[:-1]) of retrain.py line
160: exact-duplicate records (label ignored) collapse to the first. -/
def dedupFeedback (b : List Row) : List Row := dedupGo [] b

/-- Frame-level column selection df[cols] applied to one row: the
columns exist at frame level, a record missing one gets NaN. -/
def selectFrame (cols : List String) (r : Row) : Row :=
  cols.map (fun c => (c, (findVal r c).getD Value.nan))

/-- Row-by-row traversal of a fallible function, stopping at the first
raised exception (the per-row preprocessing loop of retrain.py step 9). -/
def mapExcept {α β ε : Type} (f : α → Except ε β) : List α → Except ε (List β)
  | [] => Except.ok []
  | a :: t =>
      match f a with
      | Except.ok bb => (mapExcept f t).map (fun l => bb :: l)
      | Except.error e => Except.error e

/-- Black-box bundle of the scikit-learn-level operations, exactly the
uniform estimator contract the spec assumes.  M is the type of a
fitted model object; fresh is the newly constructed VotingClassifier
of retrain.py step 11; fit, predict, predict_proba are deterministic
functions; sample n is X.sample(n, random_state=42), deterministic by
the fixed seed. -/
structure MLEngine (M : Type) where
  fresh : M
  fit : M → List Row → List Value → M
  predict : M → List Row → List Value
  predictOne : M → Row → Value
  probaOne : M → Row → ℚ × ℚ
  sample : Nat → List Row → List Row

/-- Which of the fallible external calls of one retrain run succeed:
model.fit, and the three joblib.dump calls.  A failing dump raises and
is modelled as leaving the target file unchanged. -/
structure RetrainOracle where
  fitOk : Bool
  dumpSchemaOk : Bool
  dumpModelOk : Bool
  dumpBgOk : Bool
deriving DecidableEq, Repr

/-- sklearn.metrics.accuracy_score: fraction of positions where
prediction equals label (callers always pass equal-length lists). -/
def accuracy_score (y yp : List Value) : ℚ :=
  ratDiv (((y.zip yp).filter (fun p => decide (p.1 = p.2))).length) (y.length)

/-- Result dictionary of a successful retrain (retrain.py step 15).
class_balance is the pair (share of label 0, share of label 1); the
source's value_counts dict omits an absent class where this pair
carries 0 for it. -/
structure RResult where
  status : String
  samples_used : Nat
  accuracy_on_feedback : ℚ
  class_balance : ℚ × ℚ
deriving DecidableEq, Repr

/-- Label vector y of retrain.py step 8 (labels of the deduplicated
records; all are 0 or 1 once validation passed). -/
def yOf (dfClean : List Row) : List Value :=
  dfClean.map (fun r => (labelOf r).getD Value.nan)

/-- Step 11: the loaded existing model, or a freshly constructed
ensemble when no model file exists. -/
def m0Of {M : Type} (E : MLEngine M) (st : Store M) : M :=
  match st.model with
  | some m => m
  | none => E.fresh

/-- The model object produced by step 12's model.fit(X, y). -/
def fittedModel {M : Type} (E : MLEngine M) (st : Store M) (dfClean X : List Row) : M :=
  E.fit (m0Of E st) X (yOf dfClean)

/-- Step 15's result dictionary for a run that fitted on matrix X:
samples_used is len(X) (after dedup), accuracy is the in-sample score
of the fitted model, class_balance is the step-6 distribution of the
full pre-dedup batch. -/
def commitResult {M : Type} (E : MLEngine M) (st : Store M) (b dfClean X : List Row) :
    RResult :=
  { status := "retrained", samples_used := X.length,
    accuracy_on_feedback :=
      accuracy_score (yOf dfClean) (E.predict (fittedModel E st dfClean X) X),
    class_balance := (ratDiv (countLabel b 0) b.length,
                      ratDiv (countLabel b 1) b.length) }

/-- Steps 10 (second alignment) through 15 of
retrain_model_from_feedback, entered once the expected feature list fs
is settled (and, on cold start, already dumped): align, load or create
the model, fit, score, dump model (first), sample and dump the
background data (second), return the result dictionary.  The store
argument already contains any schema file written at step 10. -/
def fitAndCommit {M : Type} (E : MLEngine M) (o : RetrainOracle) (st : Store M)
    (b dfClean X0 : List Row) (fs : List String) :
    Except RErr RResult × Store M :=
  match mapExcept (alignRow fs) X0 with
  | Except.error e => (Except.error (RErr.pyExc e), st)
  | Except.ok X =>
    if o.fitOk then
      if o.dumpModelOk then
        if o.dumpBgOk then
          (Except.ok (commitResult E st b dfClean X),
           { st with model := some (fittedModel E st dfClean X),
                     background := some (E.sample (min 100 X.length) X) })
        else (Except.error RErr.dumpFailed,
          { st with model := some (fittedModel E st dfClean X) })
      else (Except.error RErr.dumpFailed, st)
    else (Except.error RErr.fitFailed, st)

/-- Embedding of retrain_model_from_feedback (retrain.py lines
41-248), from the parsed feedback batch on: validation gates, duplicate
suppression, per-row preprocessing, schema load-or-create (step 10
dumps a new feature_names.pkl when none exists, before any fit),
alignment, fit, scoring, and the sequential model / background-sample
dumps.  Returns the Python-level outcome together with the resulting
on-disk artifact state (unchanged stores are returned on the error
paths that write nothing). -/
def retrain_model_from_feedback {M : Type} (E : MLEngine M) (o : RetrainOracle)
    (st : Store M) (b : List Row) : Except RErr RResult × Store M :=
  match validateBatch b with
  | some e => (Except.error e, st)
  | none =>
    let dfClean := dedupFeedback b
    if dfClean.length < 5 then (Except.error RErr.insufficientAfterDedup, st)
    else
      let Xraw := dfClean.map (selectFrame featureColsR)
      match mapExcept (preprocess_data_for_prediction st.featureNames) Xraw with
      | Except.error e => (Except.error (RErr.pyExc e), st)
      | Except.ok X0 =>
        match st.featureNames with
        | some fs => fitAndCommit E o st b dfClean X0 fs
        | none =>
          let fs := frameCols X0
          if o.dumpSchemaOk then
            fitAndCommit E o { st with featureNames := some fs } b dfClean X0 fs
          else (Except.error RErr.dumpFailed, st)

/-- The aligned feature matrix and label vector a retrain run fits on,
recomputed independently of the orchestrator (no writes, no oracle):
dedup, frame selection, per-row codec, expected features from the
persisted schema (or the codec's own columns), final alignment. -/
def trainingData (schemaFile : Option (List String)) (b : List Row) :
    Option (List Row × List Value) :=
  match validateBatch b with
  | some _ => none
  | none =>
    let dfClean := dedupFeedback b
    if dfClean.length < 5 then none
    else
      match mapExcept (preprocess_data_for_prediction schemaFile)
          (dfClean.map (selectFrame featureColsR)) with
      | Except.error _ => none
      | Except.ok X0 =>
        let fs :=
          match schemaFile with
          | some fs => fs
          | none => frameCols X0
        match mapExcept (alignRow fs) X0 with
        | Except.error _ => none
        | Except.ok X => some (X, yOf dfClean)

/-- Result of aligning every codec output row to the expected feature
list (the frame-level loop of retrain.py step 10). -/
def alignAll (fs : List String) (X0 : List Row) : List Row :=
  X0.map (fun v => fs.map (fun c => (c, defVal v c)))

theorem mapExcept_alignRow (fs : List String) :
    ∀ X0 : List Row, mapExcept (alignRow fs) X0 = Except.ok (alignAll fs X0)
  | [] => by simp [mapExcept, alignAll]
  | v :: t => by
    simp [mapExcept, alignRow_eq fs v, mapExcept_alignRow fs t, Except.map, alignAll]

theorem mapExcept_length {α β ε : Type} (f : α → Except ε β) :
    ∀ (l : List α) (l' : List β), mapExcept f l = Except.ok l' → l'.length = l.length
  | [], l', h => by
    simp [mapExcept] at h
    simp [← h]
  | a :: t, l', h => by
    cases hf : f a with
    | error e => rw [mapExcept, hf] at h; exact absurd h (by simp)
    | ok bb =>
      rw [mapExcept, hf] at h
      cases ht : mapExcept f t with
      | error e => rw [ht] at h; simp [Except.map] at h
      | ok tl =>
        rw [ht] at h
        simp only [Except.map, Except.ok.injEq] at h
        rw [← h]
        simp [mapExcept_length f t tl ht]

theorem alignAll_length (fs : List String) (X0 : List Row) :
    (alignAll fs X0).length = X0.length := by
  simp [alignAll]

/-- Exhaustive outcomes of the commit phase: success, a fit failure
(store handed in returned untouched), or a dump failure. -/
theorem fitAndCommit_spec {M : Type} (E : MLEngine M) (o : RetrainOracle) (st : Store M)
    (b dfClean X0 : List Row) (fs : List String) :
    (∃ res stf, fitAndCommit E o st b dfClean X0 fs = (Except.ok res, stf)) ∨
    fitAndCommit E o st b dfClean X0 fs = (Except.error RErr.fitFailed, st) ∨
    (∃ stf, fitAndCommit E o st b dfClean X0 fs = (Except.error RErr.dumpFailed, stf)) := by
  unfold fitAndCommit
  rw [mapExcept_alignRow]
  dsimp only
  by_cases hf : o.fitOk = true
  · by_cases hm : o.dumpModelOk = true
    · by_cases hbg : o.dumpBgOk = true
      · rw [if_pos hf, if_pos hm, if_pos hbg]
        exact Or.inl ⟨_, _, rfl⟩
      · rw [if_pos hf, if_pos hm, if_neg hbg]
        exact Or.inr (Or.inr ⟨_, rfl⟩)
    · rw [if_pos hf, if_neg hm]
      exact Or.inr (Or.inr ⟨_, rfl⟩)
  · rw [if_neg hf]
    exact Or.inr (Or.inl rfl)

/-- Inversion of a successful commit phase: all external calls
succeeded, the result is the step-15 dictionary for the aligned
matrix, and the store holds the newly fitted model and fresh
background sample. -/
theorem fitAndCommit_ok {M : Type} (E : MLEngine M) (o : RetrainOracle) (st : Store M)
    (b dfClean X0 : List Row) (fs : List String) (res : RResult) (stf : Store M)
    (h : fitAndCommit E o st b dfClean X0 fs = (Except.ok res, stf)) :
    res = commitResult E st b dfClean (alignAll fs X0) ∧
    stf = { st with model := some (fittedModel E st dfClean (alignAll fs X0)),
                    background := some (E.sample (min 100 (alignAll fs X0).length)
                      (alignAll fs X0)) } := by
  unfold fitAndCommit at h
  rw [mapExcept_alignRow] at h
  by_cases hf : o.fitOk = true
  · by_cases hm : o.dumpModelOk = true
    · by_cases hbg : o.dumpBgOk = true
      · simp only [hf, hm, hbg, if_true, Prod.mk.injEq, Except.ok.injEq] at h
        exact ⟨h.1.symm, h.2.symm⟩
      · simp [hf, hm, hbg] at h
    · simp [hf, hm] at h
  · simp [hf] at h

theorem retrain_of_validate_some {M : Type} (E : MLEngine M) (o : RetrainOracle)
    (st : Store M) (b : List Row) (e : RErr) (h : validateBatch b = some e) :
    retrain_model_from_feedback E o st b = (Except.error e, st) := by
  unfold retrain_model_from_feedback
  rw [h]

theorem retrain_of_dedup_small {M : Type} (E : MLEngine M) (o : RetrainOracle)
    (st : Store M) (b : List Row) (hval : validateBatch b = none)
    (hd : (dedupFeedback b).length < 5) :
    retrain_model_from_feedback E o st b = (Except.error RErr.insufficientAfterDedup, st) := by
  unfold retrain_model_from_feedback
  rw [hval]
  simp [hd]

/-- Exhaustive outcomes of a retrain run that got past validation and
duplicate suppression: success, a preprocessing exception (store
untouched), a fit failure (model and background untouched, and the
schema untouched whenever one already existed), or a dump failure. -/
theorem retrain_cases {M : Type} (E : MLEngine M) (o : RetrainOracle) (st : Store M)
    (b : List Row) (hval : validateBatch b = none)
    (hd : ¬ (dedupFeedback b).length < 5) :
    (∃ res st', retrain_model_from_feedback E o st b = (Except.ok res, st')) ∨
    (∃ pe, retrain_model_from_feedback E o st b = (Except.error (RErr.pyExc pe), st)) ∨
    (∃ stf, retrain_model_from_feedback E o st b = (Except.error RErr.fitFailed, stf) ∧
      stf.model = st.model ∧ stf.background = st.background ∧
      (st.featureNames.isSome = true → stf.featureNames = st.featureNames)) ∨
    (∃ stf, retrain_model_from_feedback E o st b = (Except.error RErr.dumpFailed, stf)) := by
  unfold retrain_model_from_feedback
  rw [hval]
  simp only [hd, if_false]
  cases hX : mapExcept (preprocess_data_for_prediction st.featureNames)
      ((dedupFeedback b).map (selectFrame featureColsR)) with
  | error e =>
    exact Or.inr (Or.inl ⟨e, rfl⟩)
  | ok X0 =>
    cases hfn : st.featureNames with
    | some fs =>
      rcases fitAndCommit_spec E o st b (dedupFeedback b) X0 fs with
        ⟨res, stf, hh⟩ | hh | ⟨stf, hh⟩
      · exact Or.inl ⟨res, stf, hh⟩
      · exact Or.inr (Or.inr (Or.inl ⟨st, hh, rfl, rfl, fun _ => hfn⟩))
      · exact Or.inr (Or.inr (Or.inr ⟨stf, hh⟩))
    | none =>
      by_cases hds : o.dumpSchemaOk = true
      · simp only [hds, if_true]
        rcases fitAndCommit_spec E o { st with featureNames := some (frameCols X0) } b
            (dedupFeedback b) X0 (frameCols X0) with ⟨res, stf, hh⟩ | hh | ⟨stf, hh⟩
        · exact Or.inl ⟨res, stf, hh⟩
        · refine Or.inr (Or.inr (Or.inl ⟨_, hh, rfl, rfl, fun hs => ?_⟩))
          simp at hs
        · exact Or.inr (Or.inr (Or.inr ⟨stf, hh⟩))
      · refine Or.inr (Or.inr (Or.inr ⟨st, ?_⟩))
        simp [hds]

/-- Every error validateBatch itself returns is one of the validation
gates. -/
def isGateErr : RErr → Bool
  | RErr.emptyFeedback => true
  | RErr.missingColumns _ => true
  | RErr.labelNotNumeric => true
  | RErr.labelBadValues => true
  | RErr.insufficientData _ _ => true
  | RErr.classImbalance _ _ => true
  | RErr.insufficientAfterDedup => true
  | _ => false

theorem validateBatch_gate (b : List Row) (e : RErr) (h : validateBatch b = some e) :
    isGateErr e = true := by
  unfold validateBatch at h
  split at h
  · cases h; rfl
  · split at h
    · cases h; rfl
    · split at h
      · cases h; rfl
      · split at h
        · cases h; rfl
        · split at h
          · cases h; rfl
          · split at h
            · cases h; rfl
            · cases h

/-- Under the structural and label gates, validation reduces to the
minimum-volume and class-balance checks. -/
theorem validateBatch_eq_of_struct (b : List Row) (hne : b.length ≠ 0)
    (hmiss : required_cols.filter (fun c => !((frameCols b).contains c)) = [])
    (hnum : labelsNumeric b = true) (hbin : labelsBinary b = true) :
    validateBatch b =
      if b.length < 5 then some (RErr.insufficientData 5 b.length)
      else if 0 < countLabel b 0 ∧ 0 < countLabel b 1 ∧
          10 * min (countLabel b 0) (countLabel b 1) < b.length then
        some (RErr.classImbalance (ratDiv (countLabel b 0) b.length)
          (ratDiv (countLabel b 1) b.length))
      else none := by
  unfold validateBatch
  rw [if_neg hne, hmiss]
  simp [hnum, hbin]

/-- A natural-number restatement of the float test fraction < 0.1. -/
theorem frac_lt_tenth_iff (m n : Nat) (hn : 0 < n) :
    ((m : ℚ) / n < 1 / 10) ↔ 10 * m < n := by
  rw [div_lt_div_iff (by exact_mod_cast hn) (by norm_num : (0:ℚ) < 10)]
  rw [one_mul]
  constructor
  · intro h
    have h' : ((m * 10 : ℕ) : ℚ) < ((n : ℕ) : ℚ) := by push_cast; linarith
    have := Nat.cast_lt (α := ℚ) |>.mp h'
    omega
  · intro h
    have h' : ((m * 10 : ℕ) : ℚ) < ((n : ℕ) : ℚ) := by
      exact_mod_cast Nat.cast_lt (α := ℚ) |>.mpr (by omega)
    push_cast at h'
    linarith

/-- Inversion of a fully successful retrain run: validation passed,
dedup left at least 5 records, preprocessing succeeded, and the commit
phase ran on the expected feature list (the persisted schema, or on
cold start the codec's columns) from a store with the same model. -/
theorem retrain_ok_inversion {M : Type} (E : MLEngine M) (o : RetrainOracle) (st : Store M)
    (b : List Row) (res : RResult) (st' : Store M)
    (h : retrain_model_from_feedback E o st b = (Except.ok res, st')) :
    validateBatch b = none ∧ ¬ (dedupFeedback b).length < 5 ∧
    ∃ X0 fs stc,
      mapExcept (preprocess_data_for_prediction st.featureNames)
        ((dedupFeedback b).map (selectFrame featureColsR)) = Except.ok X0 ∧
      fs = st.featureNames.getD (frameCols X0) ∧
      stc.model = st.model ∧
      fitAndCommit E o stc b (dedupFeedback b) X0 fs = (Except.ok res, st') := by
  cases hval : validateBatch b with
  | some e0 =>
    rw [retrain_of_validate_some E o st b e0 hval] at h
    exact absurd h (by simp)
  | none =>
    by_cases hd : (dedupFeedback b).length < 5
    · rw [retrain_of_dedup_small E o st b hval hd] at h
      exact absurd h (by simp)
    · refine ⟨rfl, hd, ?_⟩
      unfold retrain_model_from_feedback at h
      rw [hval] at h
      dsimp only at h
      rw [if_neg hd] at h
      cases hX : mapExcept (preprocess_data_for_prediction st.featureNames)
          ((dedupFeedback b).map (selectFrame featureColsR)) with
      | error e =>
        rw [hX] at h
        exact absurd h (by simp)
      | ok X0 =>
        rw [hX] at h
        cases hfn : st.featureNames with
        | some fs =>
          rw [hfn] at h
          exact ⟨X0, fs, st, rfl, rfl, rfl, h⟩
        | none =>
          rw [hfn] at h
          dsimp only at h
          by_cases hds : o.dumpSchemaOk = true
          · rw [if_pos hds] at h
            exact ⟨X0, frameCols X0, { st with featureNames := some (frameCols X0) },
              rfl, rfl, rfl, h⟩
          · rw [if_neg hds] at h
            exact absurd h (by simp)

/-- trainingData reduced on a batch that reaches the fit. -/
theorem trainingData_eq (sf : Option (List String)) (b : List Row) (X0 : List Row)
    (hval : validateBatch b = none) (hd : ¬ (dedupFeedback b).length < 5)
    (hX : mapExcept (preprocess_data_for_prediction sf)
      ((dedupFeedback b).map (selectFrame featureColsR)) = Except.ok X0) :
    trainingData sf b = some (alignAll (sf.getD (frameCols X0)) X0, yOf (dedupFeedback b)) := by
  unfold trainingData
  rw [hval]
  dsimp only
  rw [if_neg hd, hX]
  dsimp only
  cases sf with
  | some fs =>
    rw [mapExcept_alignRow]
    rfl
  | none =>
    rw [mapExcept_alignRow]
    rfl

/-- C8.  On every successful retrain, the reported
accuracy_on_feedback equals the accuracy of the committed model
(re-running its predict on the independently recomputed aligned
feature matrix against the same labels). -/
theorem c8_accuracy_roundtrip {M : Type} (E : MLEngine M) (o : RetrainOracle) (st : Store M)
    (b : List Row) (res : RResult) (st' : Store M)
    (h : retrain_model_from_feedback E o st b = (Except.ok res, st')) :
    ∃ m X y, st'.model = some m ∧ trainingData st.featureNames b = some (X, y) ∧
      res.accuracy_on_feedback = accuracy_score y (E.predict m X) := by
  obtain ⟨hval, hd, X0, fs, stc, hX, hfs, hmod, hfc⟩ := retrain_ok_inversion E o st b res st' h
  obtain ⟨hres, hstf⟩ := fitAndCommit_ok E o stc b (dedupFeedback b) X0 fs res st' hfc
  refine ⟨fittedModel E stc (dedupFeedback b) (alignAll fs X0), alignAll fs X0,
    yOf (dedupFeedback b), ?_, ?_, ?_⟩
  · rw [hstf]
  · rw [hfs]
    exact trainingData_eq st.featureNames b X0 hval hd hX
  · rw [hres]
    rfl

/-- C9.  On every successful retrain, samples_used is the record count
after duplicate suppression while class_balance is the label
distribution of the full batch before duplicate suppression. -/
theorem c9_result_fields {M : Type} (E : MLEngine M) (o : RetrainOracle) (st : Store M)
    (b : List Row) (res : RResult) (st' : Store M)
    (h : retrain_model_from_feedback E o st b = (Except.ok res, st')) :
    res.samples_used = (dedupFeedback b).length ∧
    res.class_balance = ((countLabel b 0 : ℚ) / b.length, (countLabel b 1 : ℚ) / b.length) := by
  obtain ⟨hval, hd, X0, fs, stc, hX, hfs, hmod, hfc⟩ := retrain_ok_inversion E o st b res st' h
  obtain ⟨hres, hstf⟩ := fitAndCommit_ok E o stc b (dedupFeedback b) X0 fs res st' hfc
  constructor
  · rw [hres]
    show (alignAll fs X0).length = (dedupFeedback b).length
    rw [alignAll_length, mapExcept_length _ _ _ hX, List.length_map]
  · rw [hres]
    show (ratDiv (countLabel b 0) b.length, ratDiv (countLabel b 1) b.length) = _
    rw [ratDiv_eq, ratDiv_eq]

/-- C3 as amended.  For a batch that passes the structural, label and
minimum-volume gates and contains both classes, retraining fails with
ClassImbalanceError carrying the observed distribution if and only if
the minority class fraction is strictly below 0.1. -/
theorem c3_class_imbalance_iff {M : Type} (E : MLEngine M) (o : RetrainOracle) (st : Store M)
    (b : List Row)
    (hne : b.length ≠ 0)
    (hmiss : required_cols.filter (fun c => !((frameCols b).contains c)) = [])
    (hnum : labelsNumeric b = true)
    (hbin : labelsBinary b = true)
    (hmin : ¬ b.length < 5)
    (h0 : 0 < countLabel b 0) (h1 : 0 < countLabel b 1) :
    ((retrain_model_from_feedback E o st b).1 =
        Except.error (RErr.classImbalance ((countLabel b 0 : ℚ) / b.length)
          ((countLabel b 1 : ℚ) / b.length))) ↔
      (((min (countLabel b 0) (countLabel b 1) : ℕ) : ℚ) / b.length < 1 / 10) := by
  have hlen : 0 < b.length := Nat.pos_of_ne_zero hne
  rw [frac_lt_tenth_iff _ _ hlen]
  have hval0 := validateBatch_eq_of_struct b hne hmiss hnum hbin
  rw [if_neg hmin] at hval0
  by_cases him : 10 * min (countLabel b 0) (countLabel b 1) < b.length
  · rw [if_pos ⟨h0, h1, him⟩] at hval0
    rw [retrain_of_validate_some E o st b _ hval0]
    simp only [ratDiv_eq]
    simp [him]
  · rw [if_neg (fun hcon => him hcon.2.2)] at hval0
    constructor
    · intro heq
      exfalso
      by_cases hd : (dedupFeedback b).length < 5
      · rw [retrain_of_dedup_small E o st b hval0 hd] at heq
        simp at heq
      · rcases retrain_cases E o st b hval0 hd with
          ⟨res, st2, hh⟩ | ⟨pe, hh⟩ | ⟨stf, hh, _, _, _⟩ | ⟨stf, hh⟩ <;>
          rw [hh] at heq <;> simp at heq
    · intro hlt
      exact absurd hlt him

/-- InsufficientDataError in either of its two raise sites (step 5
with counts, step 7 after dedup without). -/
def insufficientKind : RErr → Bool
  | RErr.insufficientData _ _ => true
  | RErr.insufficientAfterDedup => true
  | _ => false

/-- Whether a retrain outcome is an InsufficientDataError. -/
def resultInsufficient : Except RErr RResult → Bool
  | Except.error e => insufficientKind e
  | Except.ok _ => false

/-- Whether a retrain outcome is a ClassImbalanceError. -/
def resultImbalance : Except RErr RResult → Bool
  | Except.error (RErr.classImbalance _ _) => true
  | _ => false

/-- C4 as amended.  For a batch passing the structural and label
gates, retraining fails with an InsufficientDataError iff the raw
batch has fewer than 5 records, or the class-balance gate passes and
duplicate suppression leaves fewer than 5 records (a batch that is
both duplicate-heavy and imbalanced fails with ClassImbalanceError
instead, because the balance gate runs before dedup). -/
theorem c4_insufficient_iff {M : Type} (E : MLEngine M) (o : RetrainOracle) (st : Store M)
    (b : List Row)
    (hne : b.length ≠ 0)
    (hmiss : required_cols.filter (fun c => !((frameCols b).contains c)) = [])
    (hnum : labelsNumeric b = true)
    (hbin : labelsBinary b = true) :
    resultInsufficient (retrain_model_from_feedback E o st b).1 = true ↔
      (b.length < 5 ∨
        (¬ (0 < countLabel b 0 ∧ 0 < countLabel b 1 ∧
            10 * min (countLabel b 0) (countLabel b 1) < b.length) ∧
          (dedupFeedback b).length < 5)) := by
  have hval0 := validateBatch_eq_of_struct b hne hmiss hnum hbin
  by_cases hmin : b.length < 5
  · rw [if_pos hmin] at hval0
    rw [retrain_of_validate_some E o st b _ hval0]
    simp [resultInsufficient, insufficientKind, hmin]
  · rw [if_neg hmin] at hval0
    by_cases him : 0 < countLabel b 0 ∧ 0 < countLabel b 1 ∧
        10 * min (countLabel b 0) (countLabel b 1) < b.length
    · rw [if_pos him] at hval0
      rw [retrain_of_validate_some E o st b _ hval0]
      simp [resultInsufficient, insufficientKind, hmin, him]
    · rw [if_neg him] at hval0
      by_cases hd : (dedupFeedback b).length < 5
      · rw [retrain_of_dedup_small E o st b hval0 hd]
        simp [resultInsufficient, insufficientKind, hmin, him, hd]
      · rcases retrain_cases E o st b hval0 hd with
          ⟨res, st2, hh⟩ | ⟨pe, hh⟩ | ⟨stf, hh, _, _, _⟩ | ⟨stf, hh⟩ <;>
          rw [hh] <;>
          simp [resultInsufficient, insufficientKind, hmin, him, hd]

/-- C5 as amended.  Validation-gate failures and preprocessing
exceptions leave the artifact store exactly as it was; a fit-time
exception leaves the model and background sample untouched and, when a
schema already existed, the schema untouched as well.  (On cold start
a fit-time failure does leave behind the schema file written at step
10, and a failing background dump leaves the already-replaced model —
see the counterexample.) -/
theorem c5_failure_frame {M : Type} (E : MLEngine M) (o : RetrainOracle) (st : Store M)
    (b : List Row) (e : RErr) (st' : Store M)
    (h : retrain_model_from_feedback E o st b = (Except.error e, st')) :
    (isGateErr e = true → st' = st) ∧
    (∀ pe, e = RErr.pyExc pe → st' = st) ∧
    (e = RErr.fitFailed → st'.model = st.model ∧ st'.background = st.background ∧
      (st.featureNames.isSome = true → st'.featureNames = st.featureNames)) := by
  cases hval : validateBatch b with
  | some e0 =>
    rw [retrain_of_validate_some E o st b e0 hval] at h
    simp only [Prod.mk.injEq, Except.error.injEq] at h
    obtain ⟨he, hst⟩ := h
    subst he
    subst hst
    refine ⟨fun _ => rfl, fun _ _ => rfl, fun hef => ?_⟩
    exfalso
    have hg := validateBatch_gate b e0 hval
    rw [hef] at hg
    simp [isGateErr] at hg
  | none =>
    by_cases hd : (dedupFeedback b).length < 5
    · rw [retrain_of_dedup_small E o st b hval hd] at h
      simp only [Prod.mk.injEq, Except.error.injEq] at h
      obtain ⟨he, hst⟩ := h
      subst hst
      refine ⟨fun _ => rfl, fun _ _ => rfl, fun hef => ?_⟩
      exfalso
      rw [← he] at hef
      simp at hef
    · rcases retrain_cases E o st b hval hd with
        ⟨res, st2, hh⟩ | ⟨pe, hh⟩ | ⟨stf, hh, hm2, hbg2, hfn2⟩ | ⟨stf, hh⟩
      · rw [hh] at h
        simp at h
      · rw [hh] at h
        simp only [Prod.mk.injEq, Except.error.injEq] at h
        obtain ⟨he, hst⟩ := h
        subst hst
        refine ⟨fun _ => rfl, fun _ _ => rfl, fun hef => ?_⟩
        exfalso
        rw [← he] at hef
        simp at hef
      · rw [hh] at h
        simp only [Prod.mk.injEq, Except.error.injEq] at h
        obtain ⟨he, hst⟩ := h
        subst hst
        refine ⟨fun hg => ?_, fun pe hpe => ?_, fun _ => ⟨hm2, hbg2, hfn2⟩⟩
        · exfalso
          rw [← he] at hg
          simp [isGateErr] at hg
        · exfalso
          rw [← he] at hpe
          simp at hpe
      · rw [hh] at h
        simp only [Prod.mk.injEq, Except.error.injEq] at h
        obtain ⟨he, hst⟩ := h
        subst hst
        refine ⟨fun hg => ?_, fun pe hpe => ?_, fun hef => ?_⟩
        · exfalso
          rw [← he] at hg
          simp [isGateErr] at hg
        · exfalso
          rw [← he] at hpe
          simp at hpe
        · exfalso
          rw [← he] at hef
          simp at hef

/-- Concrete black-box estimator instance for evaluated runs: a model
is a Nat, fitting increments it (so a refit is observable), prediction
is the constant label 0. -/
def engN : MLEngine Nat where
  fresh := 0
  fit := fun m _ _ => m + 1
  predict := fun _ X => X.map (fun _ => Value.num 0)
  predictOne := fun _ _ => Value.num 0
  probaOne := fun _ _ => (1, 0)
  sample := fun n X => X.take n

/-- All external calls succeed. -/
def oAll : RetrainOracle :=
  { fitOk := true, dumpSchemaOk := true, dumpModelOk := true, dumpBgOk := true }

/-- The background-sample dump (the last of the three artifact writes)
raises; everything before it succeeds. -/
def oBgFail : RetrainOracle :=
  { fitOk := true, dumpSchemaOk := true, dumpModelOk := true, dumpBgOk := false }

/-- model.fit raises; the dumps would succeed. -/
def oFitFail : RetrainOracle :=
  { fitOk := false, dumpSchemaOk := true, dumpModelOk := true, dumpBgOk := true }

/-- A complete feedback record with the given age and outcome label. -/
def fbRec (age lbl : ℚ) : Row :=
  [("person_age", Value.num age), ("person_income", Value.num 60000),
   ("person_home_ownership", Value.str "RENT"), ("person_emp_length", Value.num 5),
   ("loan_intent", Value.str "PERSONAL"), ("loan_grade", Value.str "B"),
   ("loan_amnt", Value.num 12000), ("loan_int_rate", Value.num 11),
   ("loan_percent_income", Value.num 1),
   ("cb_person_default_on_file", Value.str "N"),
   ("cb_person_cred_hist_length", Value.num 7),
   ("actual_status", Value.num lbl)]

/-- A small persisted schema for evaluated runs. -/
def S1 : List String := ["loan_to_income_ratio"]

/-- A persisted background sample for evaluated runs. -/
def bg0 : List Row := [[("loan_to_income_ratio", Value.num 1)]]

/-- Artifact store with all three artifacts present. -/
def stFull : Store Nat := { model := some 7, featureNames := some S1, background := some bg0 }

/-- Artifact store with no artifact present (cold start). -/
def stEmpty : Store Nat := { model := none, featureNames := none, background := none }

/-- 3 records: below the minimum volume of 5. -/
def batch3 : List Row := [fbRec 20 0, fbRec 30 0, fbRec 40 1]

/-- 5 distinct records, labels 4:1. -/
def batch5 : List Row := [fbRec 20 0, fbRec 30 0, fbRec 40 0, fbRec 50 0, fbRec 60 1]

/-- 10 distinct records, 9 labeled 0 and 1 labeled 1: minority
fraction exactly 0.1, the boundary case. -/
def batch10 : List Row :=
  [fbRec 20 0, fbRec 21 0, fbRec 22 0, fbRec 23 0, fbRec 24 0,
   fbRec 25 0, fbRec 26 0, fbRec 27 0, fbRec 28 0, fbRec 29 1]

/-- 6 records with one exact feature duplicate (first and last), so 5
remain after duplicate suppression while class_balance is computed
over all 6. -/
def batchDup : List Row :=
  [fbRec 20 1, fbRec 30 0, fbRec 40 0, fbRec 50 0, fbRec 60 0, fbRec 20 1]

/-- 6 balanced records that are all feature-duplicates of one record:
the class-balance gate passes and dedup leaves a single record. -/
def batchDup6 : List Row :=
  [fbRec 20 0, fbRec 20 0, fbRec 20 0, fbRec 20 0, fbRec 20 1, fbRec 20 1]

/-- 20 records, all feature-duplicates, 19 labeled 0 and 1 labeled 1:
imbalanced (minority fraction 0.05) and duplicate-heavy at once. -/
def batch20 : List Row := List.replicate 19 (fbRec 20 0) ++ [fbRec 20 1]

/-- 20 records with the required column loan_grade missing, 19 labeled
0 and 1 labeled 1: two classes, minority fraction 0.05, but failing
the structural gate. -/
def batchMiss : List Row :=
  List.replicate 19 (dropCol (fbRec 20 0) "loan_grade") ++ [dropCol (fbRec 20 1) "loan_grade"]

/-- C2.  The three-artifact commit is not all-or-nothing: on a valid
batch where the background-sample dump raises after the model dump
succeeded, the run reports a failure, yet the persisted model has
already been replaced (7 became 8) while the background sample is
still the old one — the previously persisted triple is not the
observable state. -/
theorem c2_partial_commit :
    stFull.model = some 7 ∧ stFull.background = some bg0 ∧
    (retrain_model_from_feedback engN oBgFail stFull batch5).1 = Except.error RErr.dumpFailed ∧
    (retrain_model_from_feedback engN oBgFail stFull batch5).2.model = some 8 ∧
    (retrain_model_from_feedback engN oBgFail stFull batch5).2.background = some bg0 := by
  decide

/-- Witness for C3 as amended at the boundary batch: 10 records, 9
labeled 0 and 1 labeled 1 (minority fraction exactly 0.1), pass the
class-balance gate and the retrain succeeds. -/
theorem c3_class_imbalance_iff_witness :
    (((retrain_model_from_feedback engN oAll stFull batch10).1 =
        Except.error (RErr.classImbalance ((countLabel batch10 0 : ℚ) / batch10.length)
          ((countLabel batch10 1 : ℚ) / batch10.length))) ↔
      (((min (countLabel batch10 0) (countLabel batch10 1) : ℕ) : ℚ) / batch10.length < 1 / 10)) ∧
    (retrain_model_from_feedback engN oAll stFull batch10).1 =
      Except.ok { status := "retrained", samples_used := 10,
                  accuracy_on_feedback := Rat.divInt 9 10,
                  class_balance := (Rat.divInt 9 10, Rat.divInt 1 10) } := by
  constructor
  · exact c3_class_imbalance_iff engN oAll stFull batch10 (by decide) (by decide)
      (by decide) (by decide) (by decide) (by decide) (by decide)
  · decide

/-- C3 counterexample.  A batch with exactly two label classes and
minority fraction 0.05 < 0.1 on which validation nevertheless does not
fail with ClassImbalanceError: a required column is missing, so the
earlier structural gate fires first.  The unconditional biconditional
of the claim is therefore false; it holds only for batches that pass
the earlier gates. -/
theorem c3_counterexample :
    countLabel batchMiss 0 = 19 ∧ countLabel batchMiss 1 = 1 ∧ batchMiss.length = 20 ∧
    (((min (countLabel batchMiss 0) (countLabel batchMiss 1) : ℕ) : ℚ) / batchMiss.length
      < 1 / 10) ∧
    resultImbalance (retrain_model_from_feedback engN oAll stFull batchMiss).1 = false ∧
    (retrain_model_from_feedback engN oAll stFull batchMiss).1 =
      Except.error (RErr.missingColumns ["loan_grade"]) := by
  refine ⟨by decide, by decide, by decide, ?_, by decide, by decide⟩
  rw [frac_lt_tenth_iff _ _ (by decide)]
  decide

/-- Witness for C4 as amended: a balanced batch of 6 records that are
all feature-duplicates of one record passes the balance gate, dedup
leaves 1 < 5 records, and the run fails with the InsufficientDataError
kind. -/
theorem c4_insufficient_iff_witness :
    (resultInsufficient (retrain_model_from_feedback engN oAll stFull batchDup6).1 = true ↔
      (batchDup6.length < 5 ∨
        (¬ (0 < countLabel batchDup6 0 ∧ 0 < countLabel batchDup6 1 ∧
            10 * min (countLabel batchDup6 0) (countLabel batchDup6 1) < batchDup6.length) ∧
          (dedupFeedback batchDup6).length < 5))) ∧
    resultInsufficient (retrain_model_from_feedback engN oAll stFull batchDup6).1 = true := by
  constructor
  · exact c4_insufficient_iff engN oAll stFull batchDup6 (by decide) (by decide)
      (by decide) (by decide)
  · decide

/-- C4 counterexample.  A batch that passes the structural and label
gates, has 20 ≥ 5 records but collapses to 1 < 5 after duplicate
suppression — by the claim it should fail with InsufficientDataError —
yet the run fails with ClassImbalanceError, because the batch is also
imbalanced and the balance gate runs before duplicate suppression. -/
theorem c4_counterexample :
    batch20.length = 20 ∧ (dedupFeedback batch20).length = 1 ∧
    required_cols.filter (fun c => !((frameCols batch20).contains c)) = [] ∧
    labelsNumeric batch20 = true ∧ labelsBinary batch20 = true ∧
    resultInsufficient (retrain_model_from_feedback engN oAll stFull batch20).1 = false ∧
    (retrain_model_from_feedback engN oAll stFull batch20).1 =
      Except.error (RErr.classImbalance (Rat.divInt 19 20) (Rat.divInt 1 20)) := by
  decide

/-- Witness for C5 as amended: a validation failure (3 < 5 records)
leaves the artifact store untouched. -/
theorem c5_failure_frame_witness :
    (retrain_model_from_feedback engN oAll stFull batch3).2 = stFull := by
  have h1 : (retrain_model_from_feedback engN oAll stFull batch3).1 =
      Except.error (RErr.insufficientData 5 3) := by decide
  have heq : retrain_model_from_feedback engN oAll stFull batch3 =
      (Except.error (RErr.insufficientData 5 3),
       (retrain_model_from_feedback engN oAll stFull batch3).2) := by
    rw [← h1]
  exact (c5_failure_frame engN oAll stFull batch3 _ _ heq).1 (by decide)

/-- C5 counterexample.  On cold start (no artifacts on disk) with a
valid batch whose fit raises, the failing run nevertheless creates a
persisted file: the schema written at step 10 before the fit.  The
claim that no persisted file is created on any failing path is false. -/
theorem c5_counterexample :
    stEmpty.featureNames = none ∧
    (retrain_model_from_feedback engN oFitFail stEmpty batch5).1 = Except.error RErr.fitFailed ∧
    (retrain_model_from_feedback engN oFitFail stEmpty batch5).2.featureNames ≠ none := by
  decide

/-- Witness for C8 at a concrete successful run. -/
theorem c8_accuracy_roundtrip_witness :
    ∃ st', retrain_model_from_feedback engN oAll stFull batch5 =
        (Except.ok { status := "retrained", samples_used := 5,
                     accuracy_on_feedback := Rat.divInt 4 5,
                     class_balance := (Rat.divInt 4 5, Rat.divInt 1 5) }, st') ∧
      ∃ m X y, st'.model = some m ∧ trainingData stFull.featureNames batch5 = some (X, y) ∧
        ({ status := "retrained", samples_used := 5,
           accuracy_on_feedback := Rat.divInt 4 5,
           class_balance := (Rat.divInt 4 5, Rat.divInt 1 5) } : RResult).accuracy_on_feedback =
          accuracy_score y (engN.predict m X) := by
  have h1 : (retrain_model_from_feedback engN oAll stFull batch5).1 =
      Except.ok { status := "retrained", samples_used := 5,
                  accuracy_on_feedback := Rat.divInt 4 5,
                  class_balance := (Rat.divInt 4 5, Rat.divInt 1 5) } := by decide
  have heq : retrain_model_from_feedback engN oAll stFull batch5 =
      (Except.ok { status := "retrained", samples_used := 5,
                   accuracy_on_feedback := Rat.divInt 4 5,
                   class_balance := (Rat.divInt 4 5, Rat.divInt 1 5) },
       (retrain_model_from_feedback engN oAll stFull batch5).2) := by
    rw [← h1]
  exact ⟨(retrain_model_from_feedback engN oAll stFull batch5).2, heq,
    c8_accuracy_roundtrip engN oAll stFull batch5 _ _ heq⟩

/-- Witness for C9 at a concrete run with a duplicate record: 6
records collapse to 5, samples_used reports 5, class_balance reports
the pre-dedup distribution (2/3, 1/3), which differs from the (4/5,
1/5) distribution of the data actually fitted on. -/
theorem c9_result_fields_witness :
    ∃ st', retrain_model_from_feedback engN oAll stFull batchDup =
        (Except.ok { status := "retrained", samples_used := 5,
                     accuracy_on_feedback := Rat.divInt 4 5,
                     class_balance := (Rat.divInt 2 3, Rat.divInt 1 3) }, st') ∧
      ({ status := "retrained", samples_used := 5,
         accuracy_on_feedback := Rat.divInt 4 5,
         class_balance := (Rat.divInt 2 3, Rat.divInt 1 3) } : RResult).samples_used =
        (dedupFeedback batchDup).length ∧
      ({ status := "retrained", samples_used := 5,
         accuracy_on_feedback := Rat.divInt 4 5,
         class_balance := (Rat.divInt 2 3, Rat.divInt 1 3) } : RResult).class_balance =
        ((countLabel batchDup 0 : ℚ) / batchDup.length,
         (countLabel batchDup 1 : ℚ) / batchDup.length) ∧
      (dedupFeedback batchDup).length = 5 ∧ batchDup.length = 6 ∧
      countLabel batchDup 0 = 4 ∧ countLabel (dedupFeedback batchDup) 0 = 4 := by
  have h1 : (retrain_model_from_feedback engN oAll stFull batchDup).1 =
      Except.ok { status := "retrained", samples_used := 5,
                  accuracy_on_feedback := Rat.divInt 4 5,
                  class_balance := (Rat.divInt 2 3, Rat.divInt 1 3) } := by decide
  have heq : retrain_model_from_feedback engN oAll stFull batchDup =
      (Except.ok { status := "retrained", samples_used := 5,
                   accuracy_on_feedback := Rat.divInt 4 5,
                   class_balance := (Rat.divInt 2 3, Rat.divInt 1 3) },
       (retrain_model_from_feedback engN oAll stFull batchDup).2) := by
    rw [← h1]
  obtain ⟨hs, hb⟩ := c9_result_fields engN oAll stFull batchDup _ _ heq
  exact ⟨(retrain_model_from_feedback engN oAll stFull batchDup).2, heq, hs, hb,
    by decide, by decide, by decide, by decide⟩

/-- Well-known artifact file of shared/config.py. -/
def ENSEMBLE_MODEL_PATH : String := "models/ensemble_model.pkl"

/-- Well-known artifact file of shared/config.py. -/
def FEATURE_NAMES_PATH : String := "models/feature_names.pkl"

/-- Well-known artifact file of shared/config.py. -/
def BACKGROUND_DATA_PATH : String := "models/background_data.pkl"

/-- Embedding of _load_model (utils.py lines 53-98): loads the three
artifacts in order (model, feature names, background data); a missing
file raises FileNotFoundError, re-raised with the wrapper message of
line 94.  The module-level cache only short-circuits repeated loads of
the same artifacts and is invisible to a single call's result. -/
def _load_model {M : Type} (st : Store M) : Except PyErr (M × List String × List Row) :=
  match st.model with
  | none => Except.error (PyErr.fileNotFound ("Файл не найден: " ++ ENSEMBLE_MODEL_PATH))
  | some m =>
    match st.featureNames with
    | none => Except.error (PyErr.fileNotFound ("Файл не найден: " ++ FEATURE_NAMES_PATH))
    | some f =>
      match st.background with
      | none => Except.error (PyErr.fileNotFound ("Файл не найден: " ++ BACKGROUND_DATA_PATH))
      | some bg => Except.ok (m, f, bg)

/-- Prediction result dictionary of predict_loan_status. -/
structure PredOut where
  prediction : Value
  probability_repaid : ℚ
  probability_default : ℚ
deriving DecidableEq, Repr

/-- Embedding of predict_loan_status (utils.py lines 101-154): load
artifacts, preprocess, re-select the loaded feature names, predict;
the whole body is wrapped in a try/except that re-raises any exception
as ValueError with its message appended to the line-154 prefix. -/
def predict_loan_status {M : Type} (E : MLEngine M) (st : Store M) (input : Row) :
    Except PyErr PredOut :=
  match (do
    let l ← _load_model st
    let ip ← preprocess_data_for_prediction st.featureNames input
    let ip2 ← selectCols ip l.2.1
    Except.ok { prediction := E.predictOne l.1 ip2,
                probability_repaid := (E.probaOne l.1 ip2).1,
                probability_default := (E.probaOne l.1 ip2).2 } : Except PyErr PredOut) with
  | Except.ok r => Except.ok r
  | Except.error e =>
      Except.error (PyErr.valueError ("Ошибка при предсказании: " ++ e.msg))

/-- C10.  predict_loan_status never lets any exception kind other than
ValueError escape: every internal failure (missing artifact files
included) surfaces as a ValueError wrapping the original message. -/
theorem c10_predict_only_valueerror {M : Type} (E : MLEngine M) (st : Store M)
    (input : Row) (e : PyErr)
    (h : predict_loan_status E st input = Except.error e) :
    ∃ m, e = PyErr.valueError ("Ошибка при предсказании: " ++ m) := by
  unfold predict_loan_status at h
  cases hinner : (do
      let l ← _load_model st
      let ip ← preprocess_data_for_prediction st.featureNames input
      let ip2 ← selectCols ip l.2.1
      Except.ok { prediction := E.predictOne l.1 ip2,
                  probability_repaid := (E.probaOne l.1 ip2).1,
                  probability_default := (E.probaOne l.1 ip2).2 } : Except PyErr PredOut) with
  | ok r =>
    rw [hinner] at h
    exact absurd h (by simp)
  | error e' =>
    rw [hinner] at h
    simp only [Except.error.injEq] at h
    exact ⟨e'.msg, h.symm⟩

/-- Witness for C10: with no artifact on disk, the missing-model
FileNotFoundError surfaces as a wrapped ValueError. -/
theorem c10_predict_only_valueerror_witness :
    predict_loan_status engN stEmpty sampleRec =
      Except.error (PyErr.valueError
        ("Ошибка при предсказании: Файл не найден: " ++ ENSEMBLE_MODEL_PATH)) ∧
    ∃ m, PyErr.valueError ("Ошибка при предсказании: Файл не найден: " ++ ENSEMBLE_MODEL_PATH) =
      PyErr.valueError ("Ошибка при предсказании: " ++ m) := by
  have h : predict_loan_status engN stEmpty sampleRec =
      Except.error (PyErr.valueError
        ("Ошибка при предсказании: Файл не найден: " ++ ENSEMBLE_MODEL_PATH)) := by decide
  exact ⟨h, c10_predict_only_valueerror engN stEmpty sampleRec _ h⟩
